import Mathlib

/-!
Verification of the fossil analysis pipeline (`fossil_analyzer.py`).

The Python code is shallowly embedded as follows.

* A decoded pixel buffer (`np.array(img)` after forcing RGB) becomes
  `ImageBuffer`, a list of rows, each row a list of `(r, g, b)` triples.
  Sample values are embedded as rationals `ℚ`; numpy's float64 reductions
  (`np.mean`, `np.var`, `np.std`) are idealized as exact rational
  arithmetic, which is faithful for all threshold comparisons the spec
  makes (the thresholds 100, 150, 500, 1000, 50, 0.3 are exact).
* `np.std` is a square root, which is not rational; wherever the code
  compares a standard deviation against a threshold `t ≥ 0`, the
  embedding compares the variance against `t ^ 2` (an equivalence proved
  in the mineralization theorem below), and wherever the code stores a
  standard deviation in a result field, the embedding stores its square
  (the variance) under a `_sq`-suffixed field name.
* `datetime.now().isoformat()` is an input `now : String`.
* `Image.open` together with the RGB conversion is an input
  `decoded : Except String ImageBuffer`: `.ok buf` for a decodable file,
  `.error msg` for a missing/unreadable one (the exception message).
* The analyzer's mutable `analysis_history` list is threaded explicitly:
  `analyze_image` takes the history and returns the updated one.
  History entries mirror the Python dicts: a full `AnalysisResult`
  record, or the degraded two-key `{error, image_path}` record.
* File output is modelled as the content of the destination path:
  `Option String`, `none` meaning the file does not exist.  Opening a
  path in mode `'w'` makes the content `""` (truncate-or-create) before
  anything is written.
-/

namespace FossilAnalysis

/-- One decoded pixel: the three channel samples (r, g, b). -/
abbrev Pixel : Type := ℚ × ℚ × ℚ

/-- Decoded pixel grid: a list of rows, each row a list of pixels
(`np.array(img)` with shape height × width × 3). -/
abbrev ImageBuffer : Type := List (List Pixel)

/-- `np.mean` of a flat list of samples (mean of the empty list is 0,
by `ℚ` division-by-zero convention). -/
def listMean (xs : List ℚ) : ℚ := xs.sum / xs.length

/-- Population variance (`np.var`) of a flat list of samples. -/
def listVar (xs : List ℚ) : ℚ :=
  listMean (xs.map (fun x => (x - listMean xs) ^ 2))

/-- All rows concatenated: the buffer as a flat list of pixels. -/
def allPixels (img : ImageBuffer) : List Pixel := img.flatMap id

/-- Every sample value of the buffer, all three channels
(the flattening numpy applies for axis-free `np.mean` / `np.var`). -/
def allSamples (img : ImageBuffer) : List ℚ :=
  (allPixels img).flatMap (fun p => [p.1, p.2.1, p.2.2])

/-- `np.mean(img_array)`: mean brightness over every sample. -/
def brightness (img : ImageBuffer) : ℚ := listMean (allSamples img)

/-- `np.var(img_array)`: variance over every sample. -/
def colorVariance (img : ImageBuffer) : ℚ := listVar (allSamples img)

/-- The red-channel samples, in spatial order (`img_array[:, :, 0]`). -/
def channelR (img : ImageBuffer) : List ℚ := (allPixels img).map (fun p => p.1)

/-- The green-channel samples (`img_array[:, :, 1]`). -/
def channelG (img : ImageBuffer) : List ℚ := (allPixels img).map (fun p => p.2.1)

/-- The blue-channel samples (`img_array[:, :, 2]`). -/
def channelB (img : ImageBuffer) : List ℚ := (allPixels img).map (fun p => p.2.2)

/-- `np.mean(img_array, axis=2)`: the grayscale grid, each pixel replaced
by the mean of its three channels. -/
def grayGrid (img : ImageBuffer) : List (List ℚ) :=
  img.map (fun row => row.map (fun p => (p.1 + p.2.1 + p.2.2) / 3))

/-- `np.diff(gray, axis=0)`: row-to-row first differences of a grid. -/
def rowDiff (g : List (List ℚ)) : List (List ℚ) :=
  List.zipWith (fun r s => List.zipWith (fun a b => b - a) r s) g g.tail

/-- Number of rows of the buffer (the image height). -/
def bufHeight (img : ImageBuffer) : Nat := img.length

/-- Number of pixels in the first row (the image width; rows of a decoded
image all have the same length). -/
def bufWidth (img : ImageBuffer) : Nat := (img.headD []).length

/-- The `image_dimensions` sub-record. -/
structure Dimensions where
  width : Nat
  height : Nat
  deriving Repr, DecidableEq

/-- The `image_properties` sub-record. -/
structure ImageProperties where
  brightness : ℚ
  color_variance : ℚ
  deriving Repr, DecidableEq

/-- The `fossil_detection` sub-record built by `_detect_fossil_features`.
`texture_score_sq` holds the square of the Python `texture_score`
(which is `np.std` of the grayscale grid), per the embedding notes. -/
structure FossilDetection where
  texture_score_sq : ℚ
  mineralization_detected : Bool
  bone_structure_visible : Bool
  confidence : ℚ
  deriving Repr, DecidableEq

/-- The `classification` sub-record built by `_classify_fossil`. -/
structure Classification where
  primary_type : String
  geological_period : String
  possible_species : List String
  confidence : ℚ
  deriving Repr, DecidableEq

/-- The `age_estimation` sub-record built by `_estimate_age`. -/
structure AgeEstimation where
  estimated_age_million_years : String
  geological_era : String
  confidence : String
  notes : String
  deriving Repr, DecidableEq

/-- The `preservation_quality` sub-record built by `_assess_preservation`. -/
structure Preservation where
  quality_rating : String
  preservation_score : ℚ
  completeness : String
  recommended_preservation : String
  deriving Repr, DecidableEq

/-- A full successful analysis record, mirroring the dict assembled by
`analyze_image` key for key. -/
structure AnalysisResult where
  timestamp : String
  image_path : String
  image_dimensions : Dimensions
  image_properties : ImageProperties
  fossil_detection : FossilDetection
  classification : Classification
  age_estimation : AgeEstimation
  preservation_quality : Preservation
  deriving Repr, DecidableEq

/-- One entry of the analyzer's history / one return value of
`analyze_image`: either a full record, or the degraded dict carrying
exactly an error message and the image path and nothing else. -/
inductive HistoryEntry where
  | result (r : AnalysisResult)
  | degraded (error : String) (image_path : String)
  deriving Repr, DecidableEq

/-- `species_database.get(fossil_type, ["Unknown"])` from
`_suggest_species`: the hardcoded three-entry lists, with the
`["Unknown"]` default for a key not in the table. -/
def suggest_species (fossil_type : String) : List String :=
  if fossil_type = "Permineralized Bone" then
    ["Tyrannosaurus Rex", "Triceratops", "Velociraptor"]
  else if fossil_type = "Petrified Wood" then
    ["Araucarioxylon", "Archaeopteris", "Cordaites"]
  else if fossil_type = "Shell Fragment" then
    ["Ammonite", "Brachiopod", "Trilobite"]
  else ["Unknown"]

/-- `_classify_fossil`: bracket the mean intensity of the buffer into a
fossil type and geological period, attach the species suggestions and
the fixed confidence 0.68. -/
def classify_fossil (img : ImageBuffer) : Classification :=
  let avg_intensity := listMean (allSamples img)
  if avg_intensity < 100 then
    { primary_type := "Permineralized Bone", geological_period := "Mesozoic",
      possible_species := suggest_species "Permineralized Bone",
      confidence := 68 / 100 }
  else if avg_intensity < 150 then
    { primary_type := "Petrified Wood", geological_period := "Paleozoic",
      possible_species := suggest_species "Petrified Wood",
      confidence := 68 / 100 }
  else
    { primary_type := "Shell Fragment", geological_period := "Cenozoic",
      possible_species := suggest_species "Shell Fragment",
      confidence := 68 / 100 }

/-- `_estimate_age`: a constant record, independent of the buffer. -/
def estimate_age (_img : ImageBuffer) : AgeEstimation :=
  { estimated_age_million_years := "65-230", geological_era := "Mesozoic",
    confidence := "Medium",
    notes := "Requires laboratory analysis for precise dating" }

/-- `_assess_preservation`: bracket the color variance of the buffer into
a quality label and score; completeness and recommendation are fixed. -/
def assess_preservation (img : ImageBuffer) : Preservation :=
  let color_variance := listVar (allSamples img)
  if color_variance > 1000 then
    { quality_rating := "Excellent", preservation_score := 92 / 10,
      completeness := "Partial",
      recommended_preservation := "Climate-controlled storage" }
  else if color_variance > 500 then
    { quality_rating := "Good", preservation_score := 75 / 10,
      completeness := "Partial",
      recommended_preservation := "Climate-controlled storage" }
  else
    { quality_rating := "Fair", preservation_score := 58 / 10,
      completeness := "Partial",
      recommended_preservation := "Climate-controlled storage" }

/-- `_analyze_texture`, squared: the Python function returns
`np.std(gray)`; the embedding returns its square, the variance of the
grayscale grid. -/
def analyze_texture_sq (img : ImageBuffer) : ℚ :=
  listVar ((grayGrid img).flatMap id)

/-- `_detect_mineralization`: the code flags `np.max(np.std(img_array,
axis=(0, 1))) > 50`; comparing each per-channel spatial standard
deviation against 50 is embedded as comparing the per-channel variance
against `50 ^ 2 = 2500` (proved equivalent in the mineralization
theorem below). -/
def detect_mineralization (img : ImageBuffer) : Bool :=
  max (listVar (channelR img)) (max (listVar (channelG img)) (listVar (channelB img)))
    > 2500

/-- `_detect_edges`: absolute row-to-row first differences of the
grayscale grid. -/
def detect_edges (img : ImageBuffer) : List (List ℚ) :=
  (rowDiff (grayGrid img)).map (fun row => row.map (fun x => |x|))

/-- `_identify_bone_structure`: mean of the edge map exceeds 0.3. -/
def identify_bone_structure (img : ImageBuffer) : Bool :=
  listMean ((detect_edges img).flatMap id) > 3 / 10

/-- `_detect_fossil_features`: assemble the detection sub-record with the
fixed confidence 0.75. -/
def detect_fossil_features (img : ImageBuffer) : FossilDetection :=
  { texture_score_sq := analyze_texture_sq img,
    mineralization_detected := detect_mineralization img,
    bone_structure_visible := identify_bone_structure img,
    confidence := 75 / 100 }

/-- `analyze_image`: on a decodable image build the full record and
append it to the history; on a decode failure return the degraded
`{error, image_path}` record and leave the history untouched.
`decoded` stands for `Image.open` + RGB conversion, `now` for
`datetime.now().isoformat()`; the history is threaded explicitly. -/
def analyze_image (decoded : Except String ImageBuffer) (image_path : String)
    (now : String) (history : List HistoryEntry) :
    HistoryEntry × List HistoryEntry :=
  match decoded with
  | .error e => (.degraded e image_path, history)
  | .ok img =>
    let result : AnalysisResult :=
      { timestamp := now,
        image_path := image_path,
        image_dimensions := { width := bufWidth img, height := bufHeight img },
        image_properties :=
          { brightness := brightness img, color_variance := colorVariance img },
        fossil_detection := detect_fossil_features img,
        classification := classify_fossil img,
        age_estimation := estimate_age img,
        preservation_quality := assess_preservation img }
    (.result result, history ++ [.result result])

/-- The recognized image extensions of `batch_analyze`. -/
def image_extensions : List String := [".jpg", ".jpeg", ".png", ".bmp", ".tiff"]

/-- `pathlib.Path.suffix`: the final dot-extension of a file name,
including the dot; empty when the name has no dot after its first
character (a leading dot marks a hidden file, not an extension). -/
def pathSuffix (name : String) : String :=
  match (name.drop 1).revPosOf '.' with
  | none => ""
  | some p => (name.drop 1).drop p.byteIdx

/-- One element of a batch result list: either the directory-missing
error dict (which has only the `error` key) or an analysis outcome. -/
inductive BatchEntry where
  | dirError (error : String)
  | entry (e : HistoryEntry)
  deriving Repr, DecidableEq

/-- `batch_analyze`: the directory listing is an input,
`none` when `Path(directory).exists()` is false, otherwise the entries
in iteration order, each a file name paired with its decode outcome.
A missing directory yields the single-element error list; otherwise
every entry whose lowercased suffix is a recognized image extension is
analyzed in order, threading the history. -/
def batch_analyze (listing : Option (List (String × Except String ImageBuffer)))
    (directory : String) (now : String) (history : List HistoryEntry) :
    List BatchEntry × List HistoryEntry :=
  match listing with
  | none => ([.dirError ("Directory not found: " ++ directory)], history)
  | some files =>
    files.foldl
      (fun acc file =>
        if (pathSuffix file.1).toLower ∈ image_extensions then
          let step := analyze_image file.2 file.1 now acc.2
          (acc.1 ++ [.entry step.1], step.2)
        else acc)
      ([], history)

/-- One CSV data row, with the five columns of `_export_csv`. -/
structure CsvRow where
  timestamp : String
  image_path : String
  fossil_type : String
  age : String
  quality : String
  deriving Repr, DecidableEq

/-- The row `_export_csv` writes for a full record. -/
def rowOfResult (r : AnalysisResult) : CsvRow :=
  { timestamp := r.timestamp,
    image_path := r.image_path,
    fossil_type := r.classification.primary_type,
    age := r.age_estimation.estimated_age_million_years,
    quality := r.preservation_quality.quality_rating }

/-- The data rows of the CSV export: one per history entry, except that
an entry containing the `error` key is silently skipped
(`if 'error' not in result`). -/
def csvRows (history : List HistoryEntry) : List CsvRow :=
  history.filterMap
    (fun e => match e with
      | .result r => some (rowOfResult r)
      | .degraded _ _ => none)

/-- Quote a CSV field the way `csv.writer`'s default dialect does:
wrap in double quotes, doubling embedded quotes, when the field holds a
delimiter, a quote or a line break. -/
def csvField (s : String) : String :=
  if s.any (fun c => c = ',' ∨ c = '"' ∨ c = '\r' ∨ c = '\n') then
    "\"" ++ (s.replace "\"" "\"\"") ++ "\""
  else s

/-- Render one CSV line (the default dialect terminates rows with CRLF). -/
def csvLine (fields : List String) : String :=
  String.intercalate "," (fields.map csvField) ++ "\r\n"

/-- The header line of `_export_csv`. -/
def csvHeader : String :=
  csvLine ["timestamp", "image_path", "fossil_type", "age", "quality"]

/-- Render a data row. -/
def csvLineOfRow (row : CsvRow) : String :=
  csvLine [row.timestamp, row.image_path, row.fossil_type, row.age, row.quality]

/-- `_export_csv`, as a function from the history and the previous
content of the destination path (`none` = no file) to its new content.
The code runs `open(output_path, 'w')` first, which truncates an
existing file (or creates an empty one) regardless of `prev`; only then
does it early-return on an empty history, so the empty-history case
leaves behind an empty file, never `prev`. -/
def export_csv (history : List HistoryEntry) (_prev : Option String) :
    Option String :=
  if history.isEmpty then some ""
  else some (csvHeader ++ String.join ((csvRows history).map csvLineOfRow))

/-- The file effect of one `export_results` call. -/
inductive ExportAction where
  | wroteJson (history : List HistoryEntry)
  | wroteCsv (newContent : Option String)
  | noWrite
  deriving Repr, DecidableEq

/-- `export_results`: dispatch on the format string, then print the
completion message unconditionally.  Returns the file effect and the
printed message; a format other than `"json"` and `"csv"` matches
neither branch, so nothing is written and no error is raised. -/
def export_results (output_path : String) (format : String)
    (history : List HistoryEntry) (prev : Option String) :
    ExportAction × String :=
  let action : ExportAction :=
    if format = "json" then .wroteJson history
    else if format = "csv" then .wroteCsv (export_csv history prev)
    else .noWrite
  (action, "Results exported to: " ++ output_path)

/-- Whether a history entry is the degraded `{error, image_path}` dict. -/
def isDegraded : HistoryEntry → Bool
  | .degraded _ _ => true
  | .result _ => false

/-- The analyzer histories reachable from a fresh instance
(`analysis_history = []`) by `analyze_image` calls — which is the only
way the code ever mutates the history (`batch_analyze` and the export
routines go through it or leave the history alone). -/
inductive ReachableHistory : List HistoryEntry → Prop where
  | nil : ReachableHistory []
  | step (h : List HistoryEntry) (decoded : Except String ImageBuffer)
      (image_path now : String) : ReachableHistory h →
      ReachableHistory (analyze_image decoded image_path now h).2

/-- The species list carried by the returned entry: the
`possible_species` field of a full record, `[]` for a degraded record
(which has no classification at all). -/
def speciesOfEntry : HistoryEntry → List String
  | .result r => r.classification.possible_species
  | .degraded _ _ => []

/-! ## Helper lemmas -/

/-- A history without degraded entries loses nothing to the CSV skip
branch: there is one data row per history entry. -/
theorem csvRows_length_of_no_degraded (h : List HistoryEntry)
    (hd : ∀ e ∈ h, isDegraded e = false) : (csvRows h).length = h.length := by
  induction h with
  | nil => rfl
  | cons e t ih =>
    cases e with
    | result r =>
      simp only [csvRows, List.filterMap_cons, List.length_cons] at *
      exact congrArg Nat.succ (ih fun x hx => hd x (List.mem_cons_of_mem _ hx))
    | degraded m p =>
      exact absurd (hd _ (List.mem_cons_self _ _)) (by simp [isDegraded])

/-- Reachable histories contain no degraded entry: `analyze_image`
appends only full records and leaves the history alone on failure. -/
theorem reachable_no_degraded (h : List HistoryEntry)
    (hr : ReachableHistory h) : ∀ e ∈ h, isDegraded e = false := by
  induction hr with
  | nil => intro e he; cases he
  | step h decoded image_path now _ ih =>
    cases decoded with
    | error msg => exact ih
    | ok buf =>
      intro e he
      simp only [analyze_image, List.mem_append, List.mem_singleton] at he
      rcases he with he | he
      · exact ih e he
      · subst he; rfl

/-- On every buffer, the classifier emits a key of the hardcoded species
table, so the species list is one of the three-entry lists. -/
theorem classify_species_of_table (img : ImageBuffer) :
    (classify_fossil img).possible_species =
        ["Tyrannosaurus Rex", "Triceratops", "Velociraptor"] ∨
      (classify_fossil img).possible_species =
        ["Araucarioxylon", "Archaeopteris", "Cordaites"] ∨
      (classify_fossil img).possible_species =
        ["Ammonite", "Brachiopod", "Trilobite"] := by
  unfold classify_fossil
  dsimp only
  split_ifs <;> simp [suggest_species]

/-! ## Claim theorems -/

/-- Claim C1, counterexample: exporting CSV with an empty history does
not leave a pre-existing file untouched.  With previous content `"old"`,
the destination ends up truncated to empty, because
`open(output_path, 'w')` runs before the empty-history early return. -/
theorem export_csv_empty_not_frame_preserving :
    export_csv [] (some "old") ≠ some "old" := by decide

/-- Claim C1, amended: if the history is empty, CSV export writes no
content (no header and no rows), but the destination file is truncated
to empty — or created empty when absent — because the code opens the
path in write mode before the early return, independent of the previous
content. -/
theorem export_csv_empty_truncates (prev : Option String) :
    export_csv [] prev = some "" := rfl

/-- Claim C2: fossil type and geological period are bracketed by mean
brightness with half-open brackets, the inclusive boundary belonging to
the higher bracket: below 100 Permineralized Bone / Mesozoic, in
[100, 150) Petrified Wood / Paleozoic, at or above 150 Shell Fragment /
Cenozoic; in particular brightness exactly 100 gives Petrified Wood and
exactly 150 gives Shell Fragment. -/
theorem classify_fossil_brackets (img : ImageBuffer) :
    (brightness img < 100 →
      (classify_fossil img).primary_type = "Permineralized Bone" ∧
      (classify_fossil img).geological_period = "Mesozoic") ∧
    (100 ≤ brightness img → brightness img < 150 →
      (classify_fossil img).primary_type = "Petrified Wood" ∧
      (classify_fossil img).geological_period = "Paleozoic") ∧
    (150 ≤ brightness img →
      (classify_fossil img).primary_type = "Shell Fragment" ∧
      (classify_fossil img).geological_period = "Cenozoic") ∧
    (brightness img = 100 →
      (classify_fossil img).primary_type = "Petrified Wood") ∧
    (brightness img = 150 →
      (classify_fossil img).primary_type = "Shell Fragment") := by
  have e : listMean (allSamples img) = brightness img := rfl
  unfold classify_fossil
  rw [e]
  dsimp only
  split_ifs with h1 h2
  · exact ⟨fun _ => ⟨rfl, rfl⟩, fun hle _ => absurd h1 (not_lt.mpr hle),
      fun hle => absurd h1 (not_lt.mpr (by linarith)),
      fun heq => absurd h1 (by rw [heq]; norm_num),
      fun heq => absurd h1 (by rw [heq]; norm_num)⟩
  · exact ⟨fun hlt => absurd hlt h1, fun _ _ => ⟨rfl, rfl⟩,
      fun hle => absurd h2 (not_lt.mpr hle),
      fun _ => rfl,
      fun heq => absurd h2 (by rw [heq]; norm_num)⟩
  · exact ⟨fun hlt => absurd hlt h1,
      fun _ hlt => absurd hlt h2,
      fun _ => ⟨rfl, rfl⟩,
      fun heq => absurd h2 (by rw [heq]; norm_num),
      fun _ => rfl⟩

/-- Claim C2, witness: a uniform buffer of sample value 100 has mean
brightness exactly 100 and classifies as Petrified Wood. -/
theorem classify_fossil_brackets_witness :
    (classify_fossil [[((100 : ℚ), (100 : ℚ), (100 : ℚ))]]).primary_type =
      "Petrified Wood" :=
  (classify_fossil_brackets [[(100, 100, 100)]]).2.2.2.1
    (by norm_num [brightness, listMean, allSamples, allPixels])

/-- Claim C3: preservation quality is bracketed by color variance with
the boundary values belonging to the lower bracket: above 1000
Excellent / 9.2, in (500, 1000] Good / 7.5, at or below 500 Fair / 5.8;
in particular variance exactly 1000 gives Good and exactly 500 gives
Fair; completeness is always "Partial" and the recommendation always
the fixed storage-advice string. -/
theorem assess_preservation_brackets (img : ImageBuffer) :
    (1000 < colorVariance img →
      (assess_preservation img).quality_rating = "Excellent" ∧
      (assess_preservation img).preservation_score = 92 / 10) ∧
    (500 < colorVariance img → colorVariance img ≤ 1000 →
      (assess_preservation img).quality_rating = "Good" ∧
      (assess_preservation img).preservation_score = 75 / 10) ∧
    (colorVariance img ≤ 500 →
      (assess_preservation img).quality_rating = "Fair" ∧
      (assess_preservation img).preservation_score = 58 / 10) ∧
    (colorVariance img = 1000 →
      (assess_preservation img).quality_rating = "Good") ∧
    (colorVariance img = 500 →
      (assess_preservation img).quality_rating = "Fair") ∧
    (assess_preservation img).completeness = "Partial" ∧
    (assess_preservation img).recommended_preservation =
      "Climate-controlled storage" := by
  have e : listVar (allSamples img) = colorVariance img := rfl
  unfold assess_preservation
  rw [e]
  dsimp only
  split_ifs with h1 h2
  · exact ⟨fun _ => ⟨rfl, rfl⟩, fun _ hle => absurd h1 (not_lt.mpr hle),
      fun hle => absurd h1 (not_lt.mpr (by linarith)),
      fun heq => absurd h1 (by rw [heq]; norm_num),
      fun heq => absurd h1 (by rw [heq]; norm_num), rfl, rfl⟩
  · exact ⟨fun hlt => absurd hlt h1, fun _ _ => ⟨rfl, rfl⟩,
      fun hle => absurd h2 (not_lt.mpr hle),
      fun _ => rfl,
      fun heq => absurd h2 (by rw [heq]; norm_num), rfl, rfl⟩
  · exact ⟨fun hlt => absurd hlt h1,
      fun hlt _ => absurd hlt h2,
      fun _ => ⟨rfl, rfl⟩,
      fun heq => absurd h2 (by rw [heq]; norm_num),
      fun _ => rfl, rfl, rfl⟩

/-- Claim C3, witness: a buffer of samples 0 and 255 has color variance
16256.25 > 1000 and is rated Excellent with score 9.2. -/
theorem assess_preservation_brackets_witness :
    (assess_preservation
        [[((0 : ℚ), (0 : ℚ), (0 : ℚ)), ((255 : ℚ), (255 : ℚ), (255 : ℚ))]]).quality_rating =
      "Excellent" :=
  ((assess_preservation_brackets [[(0, 0, 0), (255, 255, 255)]]).1
    (by norm_num [colorVariance, listVar, listMean, allSamples, allPixels])).1

/-- Claim C4: on a decode failure (unreadable format or missing path),
`analyze_image` does not raise; it returns the degraded record carrying
exactly the error message and the given path — the `degraded`
constructor has no other fields, mirroring the two-key Python dict —
and the history is left unchanged. -/
theorem analyze_image_decode_failure (msg image_path now : String)
    (h : List HistoryEntry) :
    analyze_image (.error msg) image_path now h =
      (HistoryEntry.degraded msg image_path, h) := rfl

/-- Claim C5: on a decodable image, `analyze_image` returns a full
record — never the degraded error-carrying shape — whose width and
height equal the dimensions of the decoded 3-channel buffer. -/
theorem analyze_image_success_dimensions (buf : ImageBuffer)
    (path now : String) (h : List HistoryEntry) :
    (∀ msg p, (analyze_image (.ok buf) path now h).1 ≠ .degraded msg p) ∧
    ∃ r, (analyze_image (.ok buf) path now h).1 = .result r ∧
      r.image_dimensions.width = bufWidth buf ∧
      r.image_dimensions.height = bufHeight buf := by
  exact ⟨fun msg p => by simp [analyze_image], _, rfl, rfl, rfl⟩

/-- Claim C6: on a missing directory, `batch_analyze` does not raise; it
returns exactly one entry, the error record whose message names the
missing directory (the message is the fixed prefix followed by the
directory path), and the history is unchanged. -/
theorem batch_analyze_missing_directory (directory now : String)
    (h : List HistoryEntry) :
    batch_analyze none directory now h =
      ([.dirError ("Directory not found: " ++ directory)], h) ∧
    (batch_analyze none directory now h).1.length = 1 ∧
    ∃ pre post, "Directory not found: " ++ directory =
      pre ++ directory ++ post := by
  exact ⟨rfl, rfl, "Directory not found: ", "", by simp⟩

/-- Claim C7: mineralization is flagged exactly when the maximum over
the three channels of the per-channel spatial standard deviation
(the square root of the per-channel variance) exceeds 50. -/
theorem detect_mineralization_iff (img : ImageBuffer) :
    detect_mineralization img = true ↔
      50 < max (Real.sqrt ((listVar (channelR img) : ℚ) : ℝ))
        (max (Real.sqrt ((listVar (channelG img) : ℚ) : ℝ))
          (Real.sqrt ((listVar (channelB img) : ℚ) : ℝ))) := by
  have key : ∀ q : ℚ, ((50 : ℝ) < Real.sqrt (q : ℝ)) ↔ (2500 : ℚ) < q := by
    intro q
    rw [Real.lt_sqrt (by norm_num)]
    constructor
    · intro hq; exact_mod_cast (by norm_num at hq ⊢; exact_mod_cast hq : (2500 : ℝ) < (q : ℝ))
    · intro hq; have : (2500 : ℝ) < (q : ℝ) := by exact_mod_cast hq
      norm_num
      exact this
  simp only [detect_mineralization, decide_eq_true_eq, lt_max_iff, key]

/-- Claim C8: each successful `analyze_image` call appends exactly the
returned record to the history, each failing call leaves the history
unchanged; consequently a reachable history holds no degraded record
and the CSV skip branch never drops an entry (one data row per history
entry). -/
theorem history_invariant :
    (∀ (buf : ImageBuffer) (path now : String) (h : List HistoryEntry),
      (analyze_image (.ok buf) path now h).2 =
        h ++ [(analyze_image (.ok buf) path now h).1]) ∧
    (∀ (msg path now : String) (h : List HistoryEntry),
      (analyze_image (.error msg) path now h).2 = h) ∧
    (∀ h : List HistoryEntry, ReachableHistory h →
      (∀ e ∈ h, isDegraded e = false) ∧ (csvRows h).length = h.length) := by
  refine ⟨fun _ _ _ _ => rfl, fun _ _ _ _ => rfl, fun h hr => ?_⟩
  have hd := reachable_no_degraded h hr
  exact ⟨hd, csvRows_length_of_no_degraded h hd⟩

/-- Claim C8, witness: the one-step history obtained by analyzing one
decodable image from a fresh analyzer contains no degraded record and
exports one CSV row per entry. -/
theorem history_invariant_witness :
    (∀ e ∈ (analyze_image (.ok [[((0 : ℚ), (0 : ℚ), (0 : ℚ))]]) "f.png" "t" []).2,
      isDegraded e = false) ∧
    (csvRows (analyze_image (.ok [[((0 : ℚ), (0 : ℚ), (0 : ℚ))]]) "f.png" "t" []).2).length =
      ((analyze_image (.ok [[((0 : ℚ), (0 : ℚ), (0 : ℚ))]]) "f.png" "t" []).2).length :=
  history_invariant.2.2 _
    (ReachableHistory.step [] (.ok [[(0, 0, 0)]]) "f.png" "t" ReachableHistory.nil)

/-- Claim C9: the returned entry of every successful `analyze_image`
call carries a species list of exactly three entries, never the
`["Unknown"]` fallback: the classifier only produces the three labels
that key the hardcoded table. -/
theorem analyze_image_species_count (buf : ImageBuffer) (path now : String)
    (h : List HistoryEntry) :
    (speciesOfEntry ((analyze_image (.ok buf) path now h).1)).length = 3 ∧
    speciesOfEntry ((analyze_image (.ok buf) path now h).1) ≠ ["Unknown"] := by
  have hs : speciesOfEntry ((analyze_image (.ok buf) path now h).1) =
      (classify_fossil buf).possible_species := rfl
  rw [hs]
  rcases classify_species_of_table buf with hc | hc | hc <;> rw [hc] <;>
    exact ⟨rfl, by simp⟩

/-- Claim C10: `export_results` with a format string other than "json"
and "csv" matches neither branch: it writes nothing, raises nothing
(the function is total), and still produces the completion message. -/
theorem export_results_unknown_format (output_path format : String)
    (history : List HistoryEntry) (prev : Option String)
    (hj : format ≠ "json") (hc : format ≠ "csv") :
    export_results output_path format history prev =
      (ExportAction.noWrite, "Results exported to: " ++ output_path) := by
  simp [export_results, hj, hc]

/-- Claim C10, witness: exporting with format "xml" performs no write
and still reports completion. -/
theorem export_results_unknown_format_witness :
    export_results "out.xml" "xml" [] none =
      (ExportAction.noWrite, "Results exported to: " ++ "out.xml") :=
  export_results_unknown_format "out.xml" "xml" [] none
    (by decide) (by decide)

end FossilAnalysis
